import Mathlib

/-!
Shallow embedding of the Survey-app cache / task-dispatch layer
(`app/cache.py`, `app/main.py`, `app/tasks.py`) and proofs of the
specification claims about it.
-/

namespace SurveyApp

/-- Python/JSON values as they travel through the cache layer.
`pnull` is both Python `None` and JSON `null` (they are the same value in
Python: `json.loads("null") is None`). Dicts keep their insertion-ordered
key/value list. -/
inductive PyVal where
  | pnull
  | pbool (b : Bool)
  | pint (n : Int)
  | pstr (s : String)
  | plist (xs : List PyVal)
  | pdict (kvs : List (String × PyVal))

mutual

/-- Embeds Python `json.dumps` (default separators), used by `cache.py` when
storing values.  String escaping is elided (irrelevant to the claims, which
only rely on the serialized form of a value being a non-empty string). -/
def dumps : PyVal → String
  | .pnull => "null"
  | .pbool true => "true"
  | .pbool false => "false"
  | .pint n => toString n
  | .pstr s => "\"" ++ s ++ "\""
  | .plist xs => "[" ++ String.intercalate ", " (dumpsList xs) ++ "]"
  | .pdict kvs => "\x7b" ++ String.intercalate ", " (dumpsKvs kvs) ++ "\x7d"

/-- Serialize the elements of a JSON array. -/
def dumpsList : List PyVal → List String
  | [] => []
  | x :: xs => dumps x :: dumpsList xs

/-- Serialize the entries of a JSON object. -/
def dumpsKvs : List (String × PyVal) → List String
  | [] => []
  | (k, v) :: xs => ("\"" ++ k ++ "\": " ++ dumps v) :: dumpsKvs xs

end

/-- The order Python's `sorted(kwargs.items())` uses on `(key, value)` pairs:
lexicographic, key first. -/
def kwLe (a b : String × String) : Prop :=
  a.1 < b.1 ∨ (a.1 = b.1 ∧ a.2 ≤ b.2)

instance : DecidableRel kwLe := fun a b =>
  decidable_of_iff (a.1 < b.1 ∨ (a.1 = b.1 ∧ a.2 ≤ b.2)) Iff.rfl

instance : IsTotal (String × String) kwLe := by
  constructor
  intro a b
  rcases lt_trichotomy a.1 b.1 with h | h | h
  · exact Or.inl (Or.inl h)
  · rcases le_total a.2 b.2 with h2 | h2
    · exact Or.inl (Or.inr ⟨h, h2⟩)
    · exact Or.inr (Or.inr ⟨h.symm, h2⟩)
  · exact Or.inr (Or.inl h)

instance : IsTrans (String × String) kwLe := by
  constructor
  intro a b c hab hbc
  rcases hab with h1 | ⟨h1, h1'⟩ <;> rcases hbc with h2 | ⟨h2, h2'⟩
  · exact Or.inl (lt_trans h1 h2)
  · exact Or.inl (lt_of_lt_of_le h1 (le_of_eq h2))
  · exact Or.inl (lt_of_le_of_lt (le_of_eq h1) h2)
  · exact Or.inr ⟨h1.trans h2, le_trans h1' h2'⟩

instance : IsAntisymm (String × String) kwLe := by
  constructor
  intro a b hab hba
  rcases hab with h1 | ⟨h1, h1'⟩
  · rcases hba with h2 | ⟨h2, h2'⟩
    · exact absurd (lt_trans h1 h2) (lt_irrefl _)
    · exact absurd h2 (ne_of_gt h1)
  · rcases hba with h2 | ⟨h2, h2'⟩
    · exact absurd h1 (ne_of_gt h2)
    · obtain ⟨a1, a2⟩ := a
      obtain ⟨b1, b2⟩ := b
      simp only at h1 h1' h2'
      rw [h1, le_antisymm h1' h2']

/-- Embeds `cache.py` `cache_key`: `[prefix] + [str(a) for a in args] +
sorted "k:v" keyword parts`, joined with `":"`.  Positional arguments arrive
already stringified (Python applies `str`), keyword values likewise. -/
def cache_key (pre : String) (args : List String)
    (kwargs : List (String × String)) : String :=
  String.intercalate ":"
    (pre :: (args ++ (kwargs.insertionSort kwLe).map (fun kv => kv.1 ++ ":" ++ kv.2)))

/-- Redis contents relevant to this app: a finite map from key strings to the
(parse of the) stored serialized value.  `setex` stores `json.dumps v`; since
the Python `json` stdlib round-trips (`loads (dumps v) = v`), the model keeps
the value itself; TTLs are not modelled (all claims read back before expiry). -/
abbrev Cache := List (String × PyVal)

/-- `redis_client.get k` (with `decode_responses=True`): the stored string, as
the value it parses back to, or `none` when the key is absent. -/
def redisGet (st : Cache) (k : String) : Option PyVal :=
  (st.find? (fun e => e.1 == k)).map (fun e => e.2)

/-- `redis_client.setex k ttl (json.dumps v)`: unconditional overwrite. -/
def redisSetex (st : Cache) (k : String) (v : PyVal) : Cache :=
  (k, v) :: st.filter (fun e => e.1 != k)

/-- Redis `KEYS pat*` matching for glob-free patterns (the only ones this app
builds — integer ids contain no glob metacharacters): a key matches iff `pat`
is a raw string prefix of it. -/
def strHasPre (pat s : String) : Bool := pat.data.isPrefixOf s.data

/-- Embeds `cache.py` `invalidate_cache`: builds the pattern with `cache_key`,
lists `redis_client.keys(pattern + "*")` and deletes them.  The source's
`if keys:` guard only skips an empty DEL and has no observable effect. -/
def invalidate_cache (st : Cache) (pre : String) (args : List String)
    (kwargs : List (String × String)) : Cache :=
  st.filter (fun e => !(strHasPre (cache_key pre args kwargs) e.1))

/-- `CacheManager.get_survey`: `json.loads(data) if data else None`.  A miss
returns Python `None` (`pnull`); a hit returns the parsed value unless the
stored string is falsy (empty). -/
def get_survey (st : Cache) (survey_id : Int) : PyVal :=
  match redisGet st (cache_key "survey" [toString survey_id] []) with
  | none => .pnull
  | some v => if dumps v = "" then .pnull else v

/-- `CacheManager.set_survey` (default ttl 300, not modelled). -/
def set_survey (st : Cache) (survey_id : Int) (data : PyVal) : Cache :=
  redisSetex st (cache_key "survey" [toString survey_id] []) data

/-- `CacheManager.invalidate_survey`. -/
def invalidate_survey (st : Cache) (survey_id : Int) : Cache :=
  invalidate_cache st "survey" [toString survey_id] []

/-- `CacheManager.get_survey_results`. -/
def get_survey_results (st : Cache) (survey_id : Int) : PyVal :=
  match redisGet st (cache_key "survey_results" [toString survey_id] []) with
  | none => .pnull
  | some v => if dumps v = "" then .pnull else v

/-- `CacheManager.set_survey_results`. -/
def set_survey_results (st : Cache) (survey_id : Int) (data : PyVal) : Cache :=
  redisSetex st (cache_key "survey_results" [toString survey_id] []) data

/-- `CacheManager.invalidate_survey_results`. -/
def invalidate_survey_results (st : Cache) (survey_id : Int) : Cache :=
  invalidate_cache st "survey_results" [toString survey_id] []

/-- `models.py` `Survey` row (timestamps not modelled). -/
structure Survey where
  id : Int
  title : String
  description : String
  user_id : Int
  category_id : Int
deriving DecidableEq

/-- `models.py` `Question` row. -/
structure Question where
  id : Int
  survey_id : Int
  text : String
  question_type : String
  order_number : Int
deriving DecidableEq

/-- `models.py` `Answer` row. -/
structure Answer where
  id : Int
  question_id : Int
  user_id : Int
  text : String
  is_correct : Bool
deriving DecidableEq

/-- `models.py` `Result` row (timestamp not modelled). -/
structure Result where
  id : Int
  user_id : Int
  survey_id : Int
  responses_number : Int
deriving DecidableEq

/-- `models.py` `ResultAnswer` row. -/
structure ResultAnswer where
  id : Int
  result_id : Int
  question_id : Int
  answer_id : Int
  answer_text : String
deriving DecidableEq

/-- The relational store: one list per table. -/
structure DB where
  surveys : List Survey
  questions : List Question
  answers : List Answer
  results : List Result
  result_answers : List ResultAnswer
deriving DecidableEq

/-- `schemas.py` `QuestionCreate`. -/
structure QuestionCreate where
  text : String
  question_type : String
  order_number : Int
deriving DecidableEq

/-- `schemas.py` `SurveyCreate`. -/
structure SurveyCreate where
  title : String
  description : String
  category_id : Int
  questions : List QuestionCreate
deriving DecidableEq

/-- `schemas.py` `AnswerCreate`. -/
structure AnswerCreate where
  text : String
  is_correct : Bool
  question_id : Int
deriving DecidableEq

/-- `schemas.py` `ResultAnswerCreate`. -/
structure ResultAnswerCreate where
  question_id : Int
  answer_id : Int
  answer_text : String
deriving DecidableEq

/-- `schemas.py` `ResultCreate`. -/
structure ResultCreate where
  survey_id : Int
  responses_number : Int
  result_answers : List ResultAnswerCreate
deriving DecidableEq

/-- A background job handed to the execution facility (`tasks.py` jobs with
their positional arguments). -/
inductive Task where
  | report (survey_id : Int)
  | notification (survey_id : Int) (user_id : Int)
  | export (survey_id : Int)
deriving DecidableEq

/-- The state a write handler touches: the relational store, the Redis cache,
and the queue of dispatched background tasks (in dispatch order). -/
structure World where
  db : DB
  cache : Cache
  tasks : List Task

/-- Embeds `main.py` `create_survey`: commit the survey row, commit its
questions, invalidate the `survey` cache key for the new id, return the row.
`newId` / `qBase` stand for the autoincrement ids the store assigns. -/
def create_survey (w : World) (uid : Int) (s : SurveyCreate) (newId : Int)
    (qBase : Int) : World × Survey :=
  let row : Survey := ⟨newId, s.title, s.description, uid, s.category_id⟩
  let newQs := s.questions.enum.map
    (fun p => (⟨qBase + p.1, newId, p.2.text, p.2.question_type, p.2.order_number⟩ : Question))
  let db' := { w.db with surveys := w.db.surveys ++ [row],
                         questions := w.db.questions ++ newQs }
  ({ db := db', cache := invalidate_survey w.cache newId, tasks := w.tasks }, row)

/-- Embeds `main.py` `create_answer`: commit the answer row unconditionally;
then, only if the referenced question exists, invalidate both cache key
families for the question's survey and dispatch the notification task. -/
def create_answer (w : World) (uid : Int) (a : AnswerCreate) (newId : Int) :
    World × Answer :=
  let row : Answer := ⟨newId, a.question_id, uid, a.text, a.is_correct⟩
  let db' := { w.db with answers := w.db.answers ++ [row] }
  match w.db.questions.find? (fun q => q.id == a.question_id) with
  | some q =>
      let c2 := invalidate_survey_results (invalidate_survey w.cache q.survey_id) q.survey_id
      ({ db := db', cache := c2,
         tasks := w.tasks ++ [.notification q.survey_id uid] }, row)
  | none => ({ db := db', cache := w.cache, tasks := w.tasks }, row)

/-- Embeds `main.py` `create_result`: commit the result row and its result
answers, invalidate the `survey_results` key for the submitted survey id, and
dispatch the report and notification tasks. -/
def create_result (w : World) (uid : Int) (r : ResultCreate) (newId : Int)
    (raBase : Int) : World × Result :=
  let row : Result := ⟨newId, uid, r.survey_id, r.responses_number⟩
  let newRAs := r.result_answers.enum.map
    (fun p => (⟨raBase + p.1, newId, p.2.question_id, p.2.answer_id, p.2.answer_text⟩ : ResultAnswer))
  let db' := { w.db with results := w.db.results ++ [row],
                         result_answers := w.db.result_answers ++ newRAs }
  ({ db := db', cache := invalidate_survey_results w.cache r.survey_id,
     tasks := w.tasks ++ [.report r.survey_id, .notification r.survey_id uid] }, row)

/-- Modelled from the spec: the failure behaviour of the fire-and-forget
dispatch step is framework code not in the repository; per the spec, a failing
dispatch leaves the task unenqueued while the already-committed row, the
already-performed cache invalidations and the handler's success response all
stand.  This is `create_answer` with its dispatch step failing. -/
def create_answer_dispatchFailed (w : World) (uid : Int) (a : AnswerCreate)
    (newId : Int) : World × Answer :=
  let row : Answer := ⟨newId, a.question_id, uid, a.text, a.is_correct⟩
  let db' := { w.db with answers := w.db.answers ++ [row] }
  match w.db.questions.find? (fun q => q.id == a.question_id) with
  | some q =>
      let c2 := invalidate_survey_results (invalidate_survey w.cache q.survey_id) q.survey_id
      ({ db := db', cache := c2, tasks := w.tasks }, row)
  | none => ({ db := db', cache := w.cache, tasks := w.tasks }, row)

/-- Modelled from the spec: `create_result` with its dispatch step failing
(see `create_answer_dispatchFailed`). -/
def create_result_dispatchFailed (w : World) (uid : Int) (r : ResultCreate)
    (newId : Int) (raBase : Int) : World × Result :=
  let row : Result := ⟨newId, uid, r.survey_id, r.responses_number⟩
  let newRAs := r.result_answers.enum.map
    (fun p => (⟨raBase + p.1, newId, p.2.question_id, p.2.answer_id, p.2.answer_text⟩ : ResultAnswer))
  let db' := { w.db with results := w.db.results ++ [row],
                         result_answers := w.db.result_answers ++ newRAs }
  ({ db := db', cache := invalidate_survey_results w.cache r.survey_id,
     tasks := w.tasks }, row)

/-- pandas `Series.unique()`: the distinct values, first occurrence first. -/
def uniqFirst {α : Type} [DecidableEq α] : List α → List α
  | [] => []
  | x :: xs => x :: uniqFirst (xs.filter (fun y => !(y == x)))
termination_by l => l.length
decreasing_by
  simp only [List.length_cons]
  exact Nat.lt_succ_of_le (List.length_filter_le _ _)

/-- One row of the `data` list built by `generate_survey_report`. -/
structure RRow where
  question_id : Int
  question_text : String
  answer_text : String
  is_correct : Bool
  user_id : Int
deriving DecidableEq

/-- The joined rows of `generate_survey_report`: each answer paired with its
question (SQL join on `Answer.question_id = Question.id`), restricted to the
questions of the requested survey. -/
def rowsOf (qs : List Question) (sid : Int) : List Answer → List RRow
  | [] => []
  | a :: rest =>
    match qs.find? (fun q => q.id == a.question_id) with
    | some q =>
        if q.survey_id == sid then
          ⟨a.question_id, q.text, a.text, a.is_correct, a.user_id⟩ :: rowsOf qs sid rest
        else rowsOf qs sid rest
    | none => rowsOf qs sid rest

/-- The per-question stats dict of `generate_survey_report`. -/
structure QStats where
  total_answers : Nat
  correct_answers : Nat
  answer_distribution : List (String × Nat)
deriving DecidableEq

/-- The aggregate stats dict of `generate_survey_report`. -/
structure Stats where
  total_responses : Nat
  questions : List (Int × QStats)
deriving DecidableEq

/-- Outcome of running `generate_survey_report`: the `{"error": ...}` dict,
an uncaught exception, or the stats dict. -/
inductive ReportResult where
  | err (msg : String)
  | crash
  | ok (stats : Stats)
deriving DecidableEq

/-- Stats for the rows of one question: answer count, correct count, and the
`value_counts().to_dict()` histogram of answer texts. -/
def qStatsOf (qrows : List RRow) : QStats :=
  { total_answers := qrows.length,
    correct_answers := (qrows.filter (fun r => r.is_correct)).length,
    answer_distribution :=
      (uniqFirst (qrows.map (fun r => r.answer_text))).map
        (fun t => (t, (qrows.map (fun r => r.answer_text)).count t)) }

/-- The stats dict built from the joined rows: distinct `user_id` count, and
per `question_id` (in `df["question_id"].unique()` order) the per-question
stats of its rows. -/
def statsOf (rows : List RRow) : Stats :=
  { total_responses := (uniqFirst (rows.map (fun r => r.user_id))).length,
    questions := (uniqFirst (rows.map (fun r => r.question_id))).map
      (fun qid => (qid, qStatsOf (rows.filter (fun r => r.question_id == qid)))) }

/-- Embeds `tasks.py` `generate_survey_report` on the tables it reads.
`.crash` models the pandas `KeyError` raised by `df["user_id"]` when `data`
is empty (a DataFrame built from `[]` has no columns), i.e. when the survey
has no joined answers. -/
def reportGo (surveys : List Survey) (questions : List Question)
    (answers : List Answer) (sid : Int) : ReportResult :=
  match surveys.find? (fun s => s.id == sid) with
  | none => .err "Survey not found"
  | some _ =>
    match rowsOf questions sid answers with
    | [] => .crash
    | _ :: _ => .ok (statsOf (rowsOf questions sid answers))

/-- `generate_survey_report(survey_id)` reads only the survey, question and
answer tables through its own session. -/
def generate_survey_report (db : DB) (survey_id : Int) : ReportResult :=
  reportGo db.surveys db.questions db.answers survey_id

/-- Look up one text in the histogram dict, defaulting to 0 when absent. -/
def lookupCount (d : List (String × Nat)) (t : String) : Nat :=
  ((d.find? (fun p => p.1 == t)).map (fun p => p.2)).getD 0

/-! ### Helper lemmas -/

theorem dumps_pdict_ne_empty (kvs : List (String × PyVal)) :
    dumps (.pdict kvs) ≠ "" := by
  intro h
  have hl := congrArg String.length h
  rw [dumps, String.length_append, String.length_append] at hl
  have h1 : ("\x7b" : String).length = 1 := by decide
  have h2 : ("\x7d" : String).length = 1 := by decide
  have h3 : ("" : String).length = 0 := by decide
  rw [h1, h2, h3] at hl
  omega

theorem redisGet_setex_same (st : Cache) (k : String) (v : PyVal) :
    redisGet (redisSetex st k v) k = some v := by
  simp [redisGet, redisSetex]

theorem strHasPre_self (s : String) : strHasPre s s = true := by
  simp [strHasPre]

theorem mem_invalidate_cache (st : Cache) (pre : String) (args : List String)
    (kwargs : List (String × String)) (e : String × PyVal) :
    e ∈ invalidate_cache st pre args kwargs ↔
      e ∈ st ∧ strHasPre (cache_key pre args kwargs) e.1 = false := by
  simp [invalidate_cache]

theorem redisGet_invalidate_self (st : Cache) (pre : String)
    (args : List String) (kwargs : List (String × String)) :
    redisGet (invalidate_cache st pre args kwargs)
      (cache_key pre args kwargs) = none := by
  have hf : (invalidate_cache st pre args kwargs).find?
      (fun e => e.1 == cache_key pre args kwargs) = none := by
    rw [List.find?_eq_none]
    intro x hx hpx
    have hm := (mem_invalidate_cache st pre args kwargs x).mp hx
    have hx1 : x.1 = cache_key pre args kwargs := by
      simpa using hpx
    rw [hx1, strHasPre_self] at hm
    exact Bool.true_eq_false.mp hm.2
  simp [redisGet, hf]

theorem mem_uniqFirst {α : Type} [DecidableEq α] :
    ∀ (n : Nat) (l : List α), l.length ≤ n → ∀ a, (a ∈ uniqFirst l ↔ a ∈ l) := by
  intro n
  induction n with
  | zero =>
    intro l hl a
    cases l with
    | nil => rw [uniqFirst]
    | cons x xs => simp at hl
  | succ m ih =>
    intro l hl a
    cases l with
    | nil => rw [uniqFirst]
    | cons x xs =>
      rw [uniqFirst]
      have hlen : (xs.filter (fun y => !(y == x))).length ≤ m := by
        have := List.length_filter_le (fun y => !(y == x)) xs
        simp at hl
        omega
      rw [List.mem_cons, List.mem_cons, ih _ hlen a, List.mem_filter]
      constructor
      · rintro (rfl | ⟨hmem, _⟩)
        · exact Or.inl rfl
        · exact Or.inr hmem
      · rintro (rfl | hmem)
        · exact Or.inl rfl
        · by_cases hax : a = x
          · exact Or.inl hax
          · exact Or.inr ⟨hmem, by simp [hax]⟩

theorem nodup_uniqFirst {α : Type} [DecidableEq α] :
    ∀ (n : Nat) (l : List α), l.length ≤ n → (uniqFirst l).Nodup := by
  intro n
  induction n with
  | zero =>
    intro l hl
    cases l with
    | nil => rw [uniqFirst]; exact List.nodup_nil
    | cons x xs => simp at hl
  | succ m ih =>
    intro l hl
    cases l with
    | nil => rw [uniqFirst]; exact List.nodup_nil
    | cons x xs =>
      rw [uniqFirst]
      have hlen : (xs.filter (fun y => !(y == x))).length ≤ m := by
        have := List.length_filter_le (fun y => !(y == x)) xs
        simp at hl
        omega
      refine List.nodup_cons.mpr ⟨?_, ih _ hlen⟩
      intro hx
      have := (mem_uniqFirst m _ hlen x).mp hx
      rw [List.mem_filter] at this
      simp at this

theorem length_uniqFirst_eq_card {α : Type} [DecidableEq α] (l : List α) :
    (uniqFirst l).length = l.toFinset.card := by
  have hmem := mem_uniqFirst l.length l le_rfl
  have hnd := nodup_uniqFirst l.length l le_rfl
  have hfs : (uniqFirst l).toFinset = l.toFinset :=
    List.toFinset.ext (fun a => hmem a)
  rw [← hfs, List.toFinset_card_of_nodup hnd]

theorem find?_beq_self {α : Type} [DecidableEq α] (l : List α) (a : α)
    (h : a ∈ l) : l.find? (fun x => x == a) = some a := by
  induction l with
  | nil => cases h
  | cons x rest ih =>
    by_cases hx : x = a
    · subst hx
      simp
    · rcases List.mem_cons.mp h with rfl | hmem
      · exact absurd rfl hx
      · rw [List.find?_cons_of_neg _ (by simp [hx]), ih hmem]

theorem find?_fst_map {β : Type} (l : List Int) (g : Int → β) (i : Int)
    (h : i ∈ l) :
    (l.map (fun x => (x, g x))).find? (fun p => p.1 == i) = some (i, g i) := by
  induction l with
  | nil => cases h
  | cons x rest ih =>
    by_cases hx : x = i
    · subst hx
      simp
    · rcases List.mem_cons.mp h with rfl | hmem
      · exact absurd rfl hx
      · rw [List.map_cons, List.find?_cons_of_neg _ (by simp [hx]), ih hmem]

theorem lookupCount_map (l : List String) (g : String → Nat)
    (t : String) :
    lookupCount (l.map (fun x => (x, g x))) t = if t ∈ l then g t else 0 := by
  induction l with
  | nil => simp [lookupCount]
  | cons x rest ih =>
    by_cases hx : x = t
    · subst hx
      simp [lookupCount]
    · rw [lookupCount, List.map_cons, List.find?_cons_of_neg _ (by simp [hx])]
      rw [lookupCount] at ih
      rw [ih]
      simp [Ne.symm hx]

theorem lookupCount_hist (texts : List String) (t : String) :
    lookupCount ((uniqFirst texts).map (fun x => (x, texts.count x))) t
      = texts.count t := by
  rw [lookupCount_map]
  by_cases h : t ∈ uniqFirst texts
  · simp [h]
  · have : t ∉ texts := by
      intro hmem
      exact h ((mem_uniqFirst texts.length texts le_rfl t).mpr hmem)
    simp [h, List.count_eq_zero.mpr this]

/-- The answers the report's SQL join selects for a survey: those whose
question exists and belongs to the survey. -/
def answersOfSurvey (db : DB) (sid : Int) : List Answer :=
  db.answers.filter (fun a =>
    (db.questions.find? (fun q => q.id == a.question_id)).any
      (fun q => q.survey_id == sid))

theorem rowsOf_map_user_id (qs : List Question) (sid : Int) :
    ∀ as : List Answer, (rowsOf qs sid as).map (fun r => r.user_id)
      = (as.filter (fun a => (qs.find? (fun q => q.id == a.question_id)).any
          (fun q => q.survey_id == sid))).map (fun a => a.user_id) := by
  intro as
  induction as with
  | nil => rfl
  | cons a rest ih =>
    rw [rowsOf]
    cases hf : qs.find? (fun q => q.id == a.question_id) with
    | none => simp [List.filter_cons, hf, ih]
    | some q =>
      by_cases hs : q.survey_id = sid
      · simp [List.filter_cons, hf, hs, ih]
      · simp [List.filter_cons, hf, hs, ih]

theorem find?_question_eq (qs : List Question) (q : Question)
    (hmem : q ∈ qs) (hnd : (qs.map (fun x => x.id)).Nodup) :
    qs.find? (fun x => x.id == q.id) = some q := by
  induction qs with
  | nil => cases hmem
  | cons x rest ih =>
    rw [List.map_cons] at hnd
    have hnd' := List.nodup_cons.mp hnd
    rcases List.mem_cons.mp hmem with rfl | hmem'
    · simp
    · have hxq : x.id ≠ q.id := by
        intro hcontra
        exact hnd'.1 (hcontra ▸ List.mem_map.mpr ⟨q, hmem', rfl⟩)
      rw [List.find?_cons_of_neg _ (by simp [hxq]), ih hmem' hnd'.2]

theorem rowsOf_filter_eq (qs : List Question) (sid : Int) (q : Question)
    (hmem : q ∈ qs) (hq : q.survey_id = sid)
    (hnd : (qs.map (fun x => x.id)).Nodup) :
    ∀ as : List Answer,
      (rowsOf qs sid as).filter (fun r => r.question_id == q.id)
        = (as.filter (fun a => a.question_id == q.id)).map
            (fun a => ⟨a.question_id, q.text, a.text, a.is_correct, a.user_id⟩) := by
  intro as
  induction as with
  | nil => rfl
  | cons a rest ih =>
    rw [rowsOf]
    by_cases hca : a.question_id = q.id
    · have hf : qs.find? (fun x => x.id == a.question_id) = some q := by
        rw [hca]
        exact find?_question_eq qs q hmem hnd
      rw [hf]
      simp [hq, List.filter_cons, hca, ih]
    · cases hf : qs.find? (fun x => x.id == a.question_id) with
      | none => simp [List.filter_cons, hca, ih]
      | some q' =>
        by_cases hs : q'.survey_id = sid
        · simp [hs, List.filter_cons, hca, ih]
        · simp [hs, List.filter_cons, hca, ih]

theorem rowsOf_question_id_mem (qs : List Question) (sid : Int) :
    ∀ (as : List Answer) (r : RRow), r ∈ rowsOf qs sid as →
      ∃ a ∈ as, r.question_id = a.question_id := by
  intro as
  induction as with
  | nil =>
    intro r hr
    cases hr
  | cons a rest ih =>
    intro r hr
    rw [rowsOf] at hr
    rcases hfind : qs.find? (fun q => q.id == a.question_id) with _ | q
    · rw [hfind] at hr
      obtain ⟨b, hb, hrb⟩ := ih r hr
      exact ⟨b, List.mem_cons_of_mem a hb, hrb⟩
    · simp only [hfind] at hr
      by_cases hs : q.survey_id = sid
      · rw [if_pos (by simp [hs])] at hr
        rcases List.mem_cons.mp hr with rfl | hr'
        · exact ⟨a, List.mem_cons_self a rest, rfl⟩
        · obtain ⟨b, hb, hrb⟩ := ih r hr'
          exact ⟨b, List.mem_cons_of_mem a hb, hrb⟩
      · rw [if_neg (by simp [hs])] at hr
        obtain ⟨b, hb, hrb⟩ := ih r hr
        exact ⟨b, List.mem_cons_of_mem a hb, hrb⟩

theorem report_ok_eq (db : DB) (sid : Int) (srv : Survey)
    (hfind : db.surveys.find? (fun s => s.id == sid) = some srv)
    (hrows : rowsOf db.questions sid db.answers ≠ []) :
    generate_survey_report db sid
      = .ok (statsOf (rowsOf db.questions sid db.answers)) := by
  unfold generate_survey_report reportGo
  rw [hfind]
  cases hr : rowsOf db.questions sid db.answers with
  | nil => exact absurd hr hrows
  | cons r rs => rfl

/-! ### Claim theorems -/

/-- C3: `cache_key` is a pure deterministic function of its arguments: two
calls with identical name, positional arguments and keyword arguments return
the identical key; the key is independent of keyword-argument order (for
keyword lists with distinct keys, as Python dicts guarantee); and it is
sensitive to positional-argument order. -/
theorem claim_C3_cache_key_deterministic :
    (∀ (pre : String) (args : List String) (kwargs : List (String × String)),
        cache_key pre args kwargs = cache_key pre args kwargs) ∧
    (∀ (pre : String) (args : List String) (kw kw' : List (String × String)),
        (kw.map Prod.fst).Nodup → kw.Perm kw' →
        cache_key pre args kw = cache_key pre args kw') ∧
    cache_key "x" ["1", "2"] [] ≠ cache_key "x" ["2", "1"] [] := by
  refine ⟨fun _ _ _ => rfl, ?_, by decide⟩
  intro pre args kw kw' _ hperm
  have hs : kw.insertionSort kwLe = kw'.insertionSort kwLe :=
    List.eq_of_perm_of_sorted
      ((List.perm_insertionSort kwLe kw).trans
        (hperm.trans (List.perm_insertionSort kwLe kw').symm))
      (List.sorted_insertionSort kwLe kw)
      (List.sorted_insertionSort kwLe kw')
  rw [cache_key, cache_key, hs]

/-- Witness for C3: keyword order-independence at the spec's example. -/
theorem claim_C3_witness :
    cache_key "x" [] [("a", "1"), ("b", "2")]
      = cache_key "x" [] [("b", "2"), ("a", "1")] :=
  claim_C3_cache_key_deterministic.2.1 "x" [] _ _ (by decide) (by decide)

/-- C2 counterexample: with both `"survey:5"` and `"survey:52"` cached,
invalidating the resource for id 5 also removes the entry for id 52 — the
implementation is raw string-prefix matching, so the claim's id-exactness
fails. -/
theorem claim_C2_counterexample :
    redisGet (invalidate_survey
        [("survey:5", .pstr "a"), ("survey:52", .pstr "b")] 5) "survey:52"
      = none := by
  rfl

/-- C2 amended: invalidation is raw-prefix deletion, not id-exact: it removes
exactly the entries whose key has the pattern as a string prefix (so the
entry for id 5 is removed, but the entry for id 52 is removed as well), and
leaves every key that does not start with the prefix unchanged. -/
theorem claim_C2_amended (st : Cache) (sid : Int) (e : String × PyVal) :
    e ∈ invalidate_survey st sid ↔
      e ∈ st ∧ strHasPre (cache_key "survey" [toString sid] []) e.1 = false :=
  mem_invalidate_cache st "survey" [toString sid] [] e

/-- Witness for C2 at a concrete state: the non-matching key survives. -/
theorem claim_C2_witness :
    ("other", PyVal.pstr "c") ∈ invalidate_survey
      [("survey:5", .pstr "a"), ("survey:52", .pstr "b"), ("other", .pstr "c")] 5 :=
  (claim_C2_amended _ 5 _).mpr ⟨by simp, by decide⟩

/-- C10: `invalidate_cache` (hence `invalidate_survey` and
`invalidate_survey_results`) is total and idempotent: with no matching key it
leaves the state unchanged (and succeeds), and invalidating twice equals
invalidating once. -/
theorem claim_C10_invalidate_idempotent :
    (∀ (st : Cache) (pre : String) (args : List String)
        (kwargs : List (String × String)),
        (∀ e ∈ st, strHasPre (cache_key pre args kwargs) e.1 = false) →
        invalidate_cache st pre args kwargs = st) ∧
    (∀ (st : Cache) (pre : String) (args : List String)
        (kwargs : List (String × String)),
        invalidate_cache (invalidate_cache st pre args kwargs) pre args kwargs
          = invalidate_cache st pre args kwargs) ∧
    (∀ (st : Cache) (sid : Int),
        invalidate_survey (invalidate_survey st sid) sid
          = invalidate_survey st sid) ∧
    (∀ (st : Cache) (sid : Int),
        invalidate_survey_results (invalidate_survey_results st sid) sid
          = invalidate_survey_results st sid) := by
  have hidem : ∀ (st : Cache) (pre : String) (args : List String)
      (kwargs : List (String × String)),
      invalidate_cache (invalidate_cache st pre args kwargs) pre args kwargs
        = invalidate_cache st pre args kwargs := by
    intro st pre args kwargs
    rw [invalidate_cache, invalidate_cache, List.filter_filter]
    simp
  refine ⟨?_, hidem, fun st sid => hidem _ _ _ _, fun st sid => hidem _ _ _ _⟩
  intro st pre args kwargs h
  rw [invalidate_cache, List.filter_eq_self]
  intro e he
  simp [h e he]

/-- Witness for C10: no-op invalidation at a concrete non-matching state. -/
theorem claim_C10_witness :
    invalidate_cache [("other", PyVal.pstr "c")] "survey" ["5"] []
      = [("other", PyVal.pstr "c")] :=
  claim_C10_invalidate_idempotent.1 _ "survey" ["5"] []
    (by
      intro e he
      rw [List.mem_singleton] at he
      subst he
      decide)

/-- C4: CacheManager round-trip: `set_survey id v` followed (before expiry)
by `get_survey id` returns `v` for every dict `v`; and after
`invalidate_survey id`, with no repopulation, `get_survey id` is absent
(Python `None`). -/
theorem claim_C4_roundtrip :
    (∀ (st : Cache) (sid : Int) (kvs : List (String × PyVal)),
        get_survey (set_survey st sid (.pdict kvs)) sid = .pdict kvs) ∧
    (∀ (st : Cache) (sid : Int),
        get_survey (invalidate_survey st sid) sid = .pnull) := by
  constructor
  · intro st sid kvs
    rw [get_survey, set_survey, redisGet_setex_same]
    simp [dumps_pdict_ne_empty kvs]
  · intro st sid
    rw [get_survey, invalidate_survey, redisGet_invalidate_self]

/-- C9: a cached JSON `null` is indistinguishable from a cache miss: both a
missing key and a stored `null` make `get_survey` (and
`get_survey_results`) return Python `None`. -/
theorem claim_C9_null_indistinguishable :
    (∀ (st : Cache) (sid : Int),
        redisGet st (cache_key "survey" [toString sid] []) = none →
        get_survey st sid = .pnull) ∧
    (∀ (st : Cache) (sid : Int),
        get_survey (set_survey st sid .pnull) sid = .pnull) ∧
    (∀ (st : Cache) (sid : Int),
        redisGet st (cache_key "survey_results" [toString sid] []) = none →
        get_survey_results st sid = .pnull) ∧
    (∀ (st : Cache) (sid : Int),
        get_survey_results (set_survey_results st sid .pnull) sid = .pnull) := by
  refine ⟨?_, ?_, ?_, ?_⟩
  · intro st sid h
    rw [get_survey, h]
  · intro st sid
    rw [get_survey, set_survey, redisGet_setex_same]
    simp
  · intro st sid h
    rw [get_survey_results, h]
  · intro st sid
    rw [get_survey_results, set_survey_results, redisGet_setex_same]
    simp

/-- Witness for C9: the empty cache misses for both resources. -/
theorem claim_C9_witness :
    get_survey [] 5 = PyVal.pnull ∧ get_survey_results [] 5 = PyVal.pnull :=
  ⟨claim_C9_null_indistinguishable.1 [] 5 rfl,
   claim_C9_null_indistinguishable.2.2.1 [] 5 rfl⟩

/-- C6: `generate_survey_report` is deterministic in the database state it
reads: its result depends only on the survey, question and answer tables, so
two executions against identical survey/answer state return structurally
equal results and re-running the task is harmless. -/
theorem claim_C6_report_deterministic (db1 db2 : DB) (sid : Int)
    (hs : db1.surveys = db2.surveys) (hq : db1.questions = db2.questions)
    (ha : db1.answers = db2.answers) :
    generate_survey_report db1 sid = generate_survey_report db2 sid := by
  rw [generate_survey_report, generate_survey_report, hs, hq, ha]

/-- Witness for C6: two states with the same survey/question/answer tables
(differing in the results table) yield equal reports. -/
theorem claim_C6_witness :
    generate_survey_report ⟨[⟨1, "t", "d", 1, 1⟩], [], [], [], []⟩ 1
      = generate_survey_report ⟨[⟨1, "t", "d", 1, 1⟩], [], [], [⟨9, 1, 1, 0⟩], []⟩ 1 :=
  claim_C6_report_deterministic _ _ 1 rfl rfl rfl

/-- C7: a failure of the fire-and-forget dispatch step leaves the committed
row, the performed cache invalidations and the success response of
`create_answer` / `create_result` unchanged: the failed-dispatch run agrees
with the normal run on store, cache and response, and the new row is in the
store. -/
theorem claim_C7_dispatch_failure_isolated :
    (∀ (w : World) (uid : Int) (a : AnswerCreate) (newId : Int),
        (create_answer_dispatchFailed w uid a newId).1.db
          = (create_answer w uid a newId).1.db ∧
        (create_answer_dispatchFailed w uid a newId).1.cache
          = (create_answer w uid a newId).1.cache ∧
        (create_answer_dispatchFailed w uid a newId).2
          = (create_answer w uid a newId).2 ∧
        (create_answer_dispatchFailed w uid a newId).2
          ∈ (create_answer_dispatchFailed w uid a newId).1.db.answers) ∧
    (∀ (w : World) (uid : Int) (r : ResultCreate) (newId raBase : Int),
        (create_result_dispatchFailed w uid r newId raBase).1.db
          = (create_result w uid r newId raBase).1.db ∧
        (create_result_dispatchFailed w uid r newId raBase).1.cache
          = (create_result w uid r newId raBase).1.cache ∧
        (create_result_dispatchFailed w uid r newId raBase).2
          = (create_result w uid r newId raBase).2 ∧
        (create_result_dispatchFailed w uid r newId raBase).2
          ∈ (create_result_dispatchFailed w uid r newId raBase).1.db.results) := by
  constructor
  · intro w uid a newId
    rw [create_answer, create_answer_dispatchFailed]
    cases hf : w.db.questions.find? (fun q => q.id == a.question_id) with
    | none => exact ⟨rfl, rfl, rfl, by simp⟩
    | some q => exact ⟨rfl, rfl, rfl, by simp⟩
  · intro w uid r newId raBase
    exact ⟨rfl, rfl, rfl, by simp [create_result_dispatchFailed]⟩

/-- C8: `create_answer` with a `question_id` matching no existing question
still commits the answer row and returns it as a success, raises no
not-found error, invalidates no cache key and dispatches no task. -/
theorem claim_C8_dangling_question (w : World) (uid : Int) (a : AnswerCreate)
    (newId : Int) (hnone : ∀ q ∈ w.db.questions, q.id ≠ a.question_id) :
    (create_answer w uid a newId).2
      = ⟨newId, a.question_id, uid, a.text, a.is_correct⟩ ∧
    (create_answer w uid a newId).1.db.answers
      = w.db.answers ++ [⟨newId, a.question_id, uid, a.text, a.is_correct⟩] ∧
    (create_answer w uid a newId).1.cache = w.cache ∧
    (create_answer w uid a newId).1.tasks = w.tasks := by
  have hf : w.db.questions.find? (fun q => q.id == a.question_id) = none := by
    rw [List.find?_eq_none]
    intro q hq
    simpa using hnone q hq
  simp [create_answer, hf]

/-- Witness for C8: a dangling answer against an empty question table. -/
theorem claim_C8_witness :
    (create_answer ⟨⟨[], [], [], [], []⟩, [("survey:7", .pstr "x")], []⟩
        3 ⟨"txt", true, 10⟩ 1).1.cache = [("survey:7", .pstr "x")] :=
  (claim_C8_dangling_question ⟨⟨[], [], [], [], []⟩, [("survey:7", .pstr "x")], []⟩
      3 ⟨"txt", true, 10⟩ 1 (by intro q hq; cases hq)).2.2.1

/-- C1 counterexample: `create_result` for survey 7 succeeds (commits and
returns the row) yet leaves the cached `"survey:7"` entry in place, so after
this successful write the cache still holds an entry derived from the
mutated entity's id. -/
theorem claim_C1_counterexample :
    redisGet ((create_result ⟨⟨[], [], [], [], []⟩, [("survey:7", .pstr "x")], []⟩
        1 ⟨7, 0, []⟩ 1 0).1.cache) "survey:7" = some (.pstr "x") := by
  rfl

/-- C1 amended: each write handler invalidates, after commit and before
returning, exactly its own key family: `create_survey` clears only the
`survey` keys of the new id, `create_answer` clears both families of the
answered question's survey (and only when the question exists — see C8), and
`create_result` clears only the `survey_results` keys of the submitted survey
id; in each case the committed row is in the returned store state. -/
theorem claim_C1_amended :
    (∀ (w : World) (uid : Int) (s : SurveyCreate) (newId qBase : Int),
        (create_survey w uid s newId qBase).2
          ∈ (create_survey w uid s newId qBase).1.db.surveys ∧
        ∀ e ∈ (create_survey w uid s newId qBase).1.cache,
          strHasPre (cache_key "survey" [toString newId] []) e.1 = false) ∧
    (∀ (w : World) (uid : Int) (a : AnswerCreate) (newId : Int) (q : Question),
        w.db.questions.find? (fun x => x.id == a.question_id) = some q →
        (create_answer w uid a newId).2
          ∈ (create_answer w uid a newId).1.db.answers ∧
        ∀ e ∈ (create_answer w uid a newId).1.cache,
          strHasPre (cache_key "survey" [toString q.survey_id] []) e.1 = false ∧
          strHasPre (cache_key "survey_results" [toString q.survey_id] []) e.1 = false) ∧
    (∀ (w : World) (uid : Int) (r : ResultCreate) (newId raBase : Int),
        (create_result w uid r newId raBase).2
          ∈ (create_result w uid r newId raBase).1.db.results ∧
        ∀ e ∈ (create_result w uid r newId raBase).1.cache,
          strHasPre (cache_key "survey_results" [toString r.survey_id] []) e.1 = false) := by
  refine ⟨?_, ?_, ?_⟩
  · intro w uid s newId qBase
    constructor
    · simp [create_survey]
    · intro e he
      simp only [create_survey] at he
      exact ((mem_invalidate_cache _ _ _ _ e).mp he).2
  · intro w uid a newId q hf
    rw [create_answer, hf]
    constructor
    · simp
    · intro e he
      have h2 := (mem_invalidate_cache _ _ _ _ e).mp he
      have h1 := (mem_invalidate_cache _ _ _ _ e).mp h2.1
      exact ⟨h1.2, h2.2⟩
  · intro w uid r newId raBase
    constructor
    · simp [create_result]
    · intro e he
      simp only [create_result] at he
      exact ((mem_invalidate_cache _ _ _ _ e).mp he).2

/-- Witness for C1 at a concrete world: an answer to question 10 of survey 7
commits and its row is returned in the store. -/
theorem claim_C1_witness :
    (create_answer ⟨⟨[], [⟨10, 7, "q", "t", 1⟩], [], [], []⟩,
        [("survey:7", .pstr "x")], []⟩ 3 ⟨"txt", true, 10⟩ 1).2
      ∈ (create_answer ⟨⟨[], [⟨10, 7, "q", "t", 1⟩], [], [], []⟩,
        [("survey:7", .pstr "x")], []⟩ 3 ⟨"txt", true, 10⟩ 1).1.db.answers :=
  (claim_C1_amended.2.1 ⟨⟨[], [⟨10, 7, "q", "t", 1⟩], [], [], []⟩,
      [("survey:7", .pstr "x")], []⟩ 3 ⟨"txt", true, 10⟩ 1
      ⟨10, 7, "q", "t", 1⟩ rfl).1

/-- C5 counterexample: for a survey present in the store but with no
answers, `generate_survey_report` does not return a stats structure — it
raises (pandas `KeyError` on the empty DataFrame), modelled as `.crash`. -/
theorem claim_C5_counterexample :
    generate_survey_report ⟨[⟨1, "t", "d", 1, 1⟩], [], [], [], []⟩ 1
      = .crash := by
  rfl

/-- C5 amended: for an id absent from the store the report is the
`"Survey not found"` error dict; for a survey present but with no joined
answers the task raises; for a survey present with at least one joined
answer it returns stats in which `total_responses` is the number of distinct
users among the survey's answers, and each question of the survey that has
at least one answer gets an entry whose `total_answers` counts its answers,
whose `correct_answers` counts those with `is_correct` true, and whose
`answer_distribution` maps each answer text to its occurrence count
(questions with zero answers get no entry). -/
theorem claim_C5_amended :
    (∀ (db : DB) (sid : Int),
        db.surveys.find? (fun s => s.id == sid) = none →
        generate_survey_report db sid = .err "Survey not found") ∧
    (∀ (db : DB) (sid : Int) (srv : Survey),
        db.surveys.find? (fun s => s.id == sid) = some srv →
        rowsOf db.questions sid db.answers = [] →
        generate_survey_report db sid = .crash) ∧
    (∀ (db : DB) (sid : Int) (srv : Survey),
        db.surveys.find? (fun s => s.id == sid) = some srv →
        (db.questions.map (fun x => x.id)).Nodup →
        rowsOf db.questions sid db.answers ≠ [] →
        ∃ stats, generate_survey_report db sid = .ok stats ∧
          stats.total_responses
            = ((answersOfSurvey db sid).map (fun a => a.user_id)).toFinset.card ∧
          (∀ q ∈ db.questions, q.survey_id = sid →
            (∃ a ∈ db.answers, a.question_id = q.id) →
            ∃ qs, stats.questions.find? (fun p => p.1 == q.id) = some (q.id, qs) ∧
              qs.total_answers
                = (db.answers.filter (fun a => a.question_id == q.id)).length ∧
              qs.correct_answers
                = ((db.answers.filter (fun a => a.question_id == q.id)).filter
                    (fun a => a.is_correct)).length ∧
              ∀ t, lookupCount qs.answer_distribution t
                = ((db.answers.filter (fun a => a.question_id == q.id)).map
                    (fun a => a.text)).count t) ∧
          ∀ qid : Int, (∀ a ∈ db.answers, a.question_id ≠ qid) →
            stats.questions.find? (fun p => p.1 == qid) = none) := by
  refine ⟨?_, ?_, ?_⟩
  · intro db sid hfind
    rw [generate_survey_report, reportGo, hfind]
  · intro db sid srv hfind hrows
    rw [generate_survey_report, reportGo, hfind, hrows]
  · intro db sid srv hfind hnd hrows
    refine ⟨statsOf (rowsOf db.questions sid db.answers),
      report_ok_eq db sid srv hfind hrows, ?_, ?_, ?_⟩
    · simp only [statsOf]
      rw [rowsOf_map_user_id, length_uniqFirst_eq_card]
      rfl
    · intro q hq hqsid ha
      obtain ⟨a, hamem, haq⟩ := ha
      have hfilter := rowsOf_filter_eq db.questions sid q hq hqsid hnd db.answers
      have hmemf : a ∈ db.answers.filter (fun x => x.question_id == q.id) :=
        List.mem_filter.mpr ⟨hamem, by simp [haq]⟩
      have hrowmem : (⟨a.question_id, q.text, a.text, a.is_correct, a.user_id⟩ : RRow)
          ∈ (rowsOf db.questions sid db.answers).filter
              (fun r => r.question_id == q.id) := by
        rw [hfilter]
        exact List.mem_map.mpr ⟨a, hmemf, rfl⟩
      have hqid_mem : q.id ∈ (rowsOf db.questions sid db.answers).map
          (fun r => r.question_id) :=
        List.mem_map.mpr ⟨_, (List.mem_filter.mp hrowmem).1, by simp [haq]⟩
      have hqid_uniq : q.id ∈ uniqFirst ((rowsOf db.questions sid db.answers).map
          (fun r => r.question_id)) :=
        (mem_uniqFirst _ _ le_rfl q.id).mpr hqid_mem
      refine ⟨qStatsOf ((rowsOf db.questions sid db.answers).filter
          (fun r => r.question_id == q.id)), ?_, ?_, ?_, ?_⟩
      · simp only [statsOf]
        exact find?_fst_map _
          (fun qid => qStatsOf ((rowsOf db.questions sid db.answers).filter
            (fun r => r.question_id == qid))) q.id hqid_uniq
      · simp only [qStatsOf]
        rw [hfilter, List.length_map]
      · simp only [qStatsOf]
        rw [hfilter, List.filter_map, List.length_map]
        rfl
      · intro t
        simp only [qStatsOf]
        rw [lookupCount_hist, hfilter, List.map_map]
        rfl
    · intro qid hnoans
      simp only [statsOf]
      rw [List.find?_eq_none]
      intro p hp
      obtain ⟨x, hx, rfl⟩ := List.mem_map.mp hp
      intro hbeq
      have hxq : x = qid := by simpa using hbeq
      subst hxq
      have hxmem : x ∈ (rowsOf db.questions sid db.answers).map
          (fun r => r.question_id) :=
        (mem_uniqFirst _ _ le_rfl x).mp hx
      obtain ⟨r, hrmem, hrq⟩ := List.mem_map.mp hxmem
      obtain ⟨b, hb, hrb⟩ := rowsOf_question_id_mem db.questions sid db.answers r hrmem
      exact hnoans b hb (hrb.symm.trans hrq)

/-- Witness for C5 at a concrete store: survey 1 has question 10 with three
answers and question 11 with none, so the report succeeds and its stats dict
has no entry for question 11. -/
theorem claim_C5_witness :
    ∃ stats, generate_survey_report
        ⟨[⟨1, "t", "d", 1, 1⟩],
         [⟨10, 1, "q1", "open", 1⟩, ⟨11, 1, "q2", "open", 2⟩],
         [⟨100, 10, 5, "yes", true⟩, ⟨101, 10, 6, "no", false⟩,
          ⟨102, 10, 7, "yes", true⟩],
         [], []⟩ 1 = .ok stats ∧
      stats.questions.find? (fun p => p.1 == 11) = none := by
  obtain ⟨stats, h1, _, _, habs⟩ := claim_C5_amended.2.2
    ⟨[⟨1, "t", "d", 1, 1⟩],
     [⟨10, 1, "q1", "open", 1⟩, ⟨11, 1, "q2", "open", 2⟩],
     [⟨100, 10, 5, "yes", true⟩, ⟨101, 10, 6, "no", false⟩,
      ⟨102, 10, 7, "yes", true⟩],
     [], []⟩ 1 ⟨1, "t", "d", 1, 1⟩ rfl (by decide) (by decide)
  exact ⟨stats, h1, habs 11 (by decide)⟩

end SurveyApp
